import Mathlib

/-!
# GSS (apq8064) fatal-error driver: `arch/arm/mach-msm/gss-8064.c`

A shallow embedding of the driver.  The module's file-scope variables
(`gss_data`, `crash_shutdown`) and the part of the kernel the driver talks to
(interrupt disable depth, the `gss_fatal_work` item, registered resources)
are fields of an explicit `State`; every call the driver issues to the rest
of the kernel is appended to `State.trace`, and the values those calls hand
back are read from an `Env`.
-/

namespace Gss8064

/-! ## Constants taken from headers -/

/-- Constants the driver uses but that are defined in other headers
(`smd_private.h`, `mach/irqs.h`, `linux/errno.h`, `linux/miscdevice.h`,
`linux/interrupt.h`).  They are parameters of the whole development. -/
structure Consts where
  SMSM_RESET : Nat
  SMSM_SYSTEM_DOWNLOAD : Nat
  SMSM_SYSTEM_REBOOT_USR : Nat
  SMSM_SYSTEM_PWRDWN_USR : Nat
  SMSM_MODEM_STATE : Nat
  GSS_A5_WDOG_EXPIRED : Nat
  IRQF_TRIGGER_RISING : Nat
  MISC_DYNAMIC_MINOR : Nat
  ENODEV : Int
  ENOMEM : Int
  deriving DecidableEq, Repr

/-- One concrete choice of the header constants (the values of the msm
3.x headers), used to instantiate the general theorems. -/
def msmConsts : Consts where
  SMSM_RESET := 0x00000040
  SMSM_SYSTEM_DOWNLOAD := 0x08000000
  SMSM_SYSTEM_REBOOT_USR := 0x20000000
  SMSM_SYSTEM_PWRDWN_USR := 0x40000000
  SMSM_MODEM_STATE := 1
  GSS_A5_WDOG_EXPIRED := 100
  IRQF_TRIGGER_RISING := 1
  MISC_DYNAMIC_MINOR := 255
  ENODEV := 19
  ENOMEM := 12

/-- Truncation to `uint32_t`. -/
def u32 (n : Nat) : Nat := n % 2 ^ 32

/-! ## Data model -/

/-- The C `struct ramdump_segment`: address and size. -/
structure ramdump_segment where
  address : Nat
  size : Nat
  deriving DecidableEq, Repr

/-- The table `gss_segments[]`. -/
def gss_segments : List ramdump_segment := [⟨0x89000000, 0x00D00000⟩]

/-- The table `smem_segments[]`. -/
def smem_segments : List ramdump_segment := [⟨0x80000000, 0x00200000⟩]

/-- The fields of `struct miscdevice` that the driver writes. -/
structure miscdevice where
  minor : Nat
  name : String
  fops : String
  deriving DecidableEq, Repr

/-- The C `struct gss_8064_data`; pointers are numbers, `0` is `NULL`. -/
structure gss_8064_data where
  gss_dev : miscdevice
  pil_handle : Nat
  gss_ramdump_dev : Nat
  smem_ramdump_dev : Nat
  deriving DecidableEq, Repr

/-- The text printed by each `pr_err` / `pr_debug` / `pr_info` of the file,
with the `%d` argument where there is one. -/
inductive Msg where
  | wdog_bite_received
  | smsm_reset_calling_restart
  | user_invoked_reset
  | unable_to_dump_gss (rc : Int)
  | unable_to_dump_smem (rc : Int)
  | pil_get_returned_null
  | pil_put_called
  | unable_to_register_smsm_cb (rc : Int)
  | unable_to_request_wdog_irq (rc : Int)
  | unable_to_reg_ssr (rc : Int)
  | misc_register_failed (rc : Int)
  | unable_to_create_gss_ramdump (rc : Int)
  | unable_to_create_smem_ramdump (rc : Int)
  | driver_inited
  deriving DecidableEq, Repr

/-- A call issued by the driver to the rest of the kernel.  The loader's
`pil_force_shutdown` / `pil_force_boot` return nothing to the caller; the
event keeps the loader's outcome so that it can be spoken about. -/
inductive Call where
  | pr_err (m : Msg)
  | pr_debug (m : Msg)
  | pr_info (m : Msg)
  | smsm_get_state (entry : Nat)
  | subsystem_restart (name : String)
  | kernel_restart
  | pil_force_shutdown (name : String) (outcome : Int)
  | pil_force_boot (name : String) (outcome : Int)
  | disable_irq_nosync (irq : Nat)
  | enable_irq (irq : Nat)
  | smsm_reset_modem (mode : Nat)
  | do_ramdump (dev : Nat) (segs : List ramdump_segment) (nsegs : Nat)
  | schedule_work
  | pil_get (name : String)
  | pil_put (handle : Nat)
  | smsm_state_cb_register (entry : Nat) (mask : Nat)
  | request_irq (irq : Nat) (flags : Nat) (name : String)
  | ssr_register_subsystem (name : String)
  | misc_register (name : String)
  | create_ramdump_device (name : String)
  deriving DecidableEq, Repr

/-- A kernel resource acquired by a successful registration. -/
inductive Resource where
  | smsm_callback (entry : Nat) (mask : Nat)
  | irq (irq : Nat)
  | ssr_subsystem (name : String)
  | misc_device (name : String)
  | ramdump_device (name : String) (dev : Nat)
  deriving DecidableEq, Repr

/-- The C `irqreturn_t`. -/
inductive irqreturn_t where
  | IRQ_NONE
  | IRQ_HANDLED
  | IRQ_WAKE_THREAD
  deriving DecidableEq, Repr

/-- What the rest of the kernel answers to the driver's calls. -/
structure Env where
  smsm_get_state : Nat → Nat
  do_ramdump : Nat → List ramdump_segment → Nat → Int
  pil_get : String → Nat
  pil_force_shutdown : String → Int
  pil_force_boot : String → Int
  cpu_is_apq8064 : Bool
  smsm_state_cb_register : Int
  request_irq : Int
  ssr_register_subsystem : Int
  misc_register : Int
  create_ramdump_device : String → Nat

/-- Module variables, the kernel state the driver acts on, and the trace of
calls issued so far. -/
structure State where
  gss_data : gss_8064_data
  crash_shutdown : Int
  irq_depth : Nat → Nat
  work_pending : Bool
  work_queued : Nat
  held : List Resource
  trace : List Call

/-- The state at module load: zero-initialised statics, nothing registered,
`gss_fatal_work` idle. -/
def State.boot : State where
  gss_data := ⟨⟨0, "", ""⟩, 0, 0, 0⟩
  crash_shutdown := 0
  irq_depth := fun _ => 0
  work_pending := false
  work_queued := 0
  held := []
  trace := []

/-! ## Kernel primitives -/

/-- Append one call to the trace. -/
def emit (c : Call) (st : State) : State :=
  { st with trace := st.trace ++ [c] }

/-- Modelled from the spec: the kernel's `disable_irq_nosync` is not in this
file; masking is nesting-counted, each call raises the line's disable depth
by one. -/
def disable_irq_nosync (irq : Nat) (st : State) : State :=
  let st := emit (Call.disable_irq_nosync irq) st
  { st with irq_depth := Function.update st.irq_depth irq (st.irq_depth irq + 1) }

/-- Modelled from the spec: the kernel's `enable_irq` is not in this file; it
lowers the line's disable depth by one (an unbalanced enable at depth 0
changes nothing); the line can fire only at depth 0. -/
def enable_irq (irq : Nat) (st : State) : State :=
  let st := emit (Call.enable_irq irq) st
  match st.irq_depth irq with
  | 0 => st
  | d + 1 => { st with irq_depth := Function.update st.irq_depth irq d }

/-- Whether the interrupt line can fire. -/
def irq_unmasked (irq : Nat) (st : State) : Bool :=
  st.irq_depth irq == 0

/-- Modelled from the spec: the kernel's `schedule_work` is not in this file;
for the single static item `gss_fatal_work` it sets the pending bit and
enqueues the item only if the bit was clear, and reports whether it did. -/
def schedule_work (st : State) : Bool × State :=
  let st := emit Call.schedule_work st
  if st.work_pending then (false, st)
  else (true, { st with work_pending := true, work_queued := st.work_queued + 1 })

/-- Number of `subsystem_restart(name)` calls in a trace. -/
def subsystem_restart_calls (name : String) (tr : List Call) : Nat :=
  tr.count (Call.subsystem_restart name)

/-- Number of `kernel_restart` calls in a trace. -/
def kernel_restart_calls (tr : List Call) : Nat :=
  tr.count Call.kernel_restart

/-- Number of `do_ramdump` calls in a trace, whatever the arguments. -/
def do_ramdump_calls (tr : List Call) : Nat :=
  (tr.filter fun c => match c with
    | Call.do_ramdump _ _ _ => true
    | _ => false).length

/-- Number of runs of `gss_fatal_fn` recorded in a trace: each run starts
with its own `pr_err`, printed nowhere else. -/
def gss_fatal_fn_runs (tr : List Call) : Nat :=
  tr.count (Call.pr_err Msg.wdog_bite_received)

/-! ## The driver -/

/-- The C `gss_fatal_fn`. -/
def gss_fatal_fn (K : Consts) (env : Env) (st : State) : State :=
  let panic_smsm_states := u32 (K.SMSM_RESET ||| K.SMSM_SYSTEM_DOWNLOAD)
  let reset_smsm_states := u32 (K.SMSM_SYSTEM_REBOOT_USR ||| K.SMSM_SYSTEM_PWRDWN_USR)
  let st := emit (Call.pr_err Msg.wdog_bite_received) st
  let st := emit (Call.smsm_get_state K.SMSM_MODEM_STATE) st
  let gss_state := u32 (env.smsm_get_state K.SMSM_MODEM_STATE)
  if gss_state &&& panic_smsm_states ≠ 0 then
    let st := emit (Call.pr_err Msg.smsm_reset_calling_restart) st
    emit (Call.subsystem_restart "gss") st
  else if gss_state &&& reset_smsm_states ≠ 0 then
    let st := emit (Call.pr_err Msg.user_invoked_reset) st
    emit Call.kernel_restart st
  else
    emit (Call.subsystem_restart "gss") st

/-- The C `smsm_state_cb`. -/
def smsm_state_cb (K : Consts) (_old_state new_state : Nat) (st : State) : State :=
  if st.crash_shutdown ≠ 0 then st
  else if u32 new_state &&& K.SMSM_RESET ≠ 0 then
    let st := emit (Call.pr_err Msg.smsm_reset_calling_restart) st
    emit (Call.subsystem_restart "gss") st
  else st

/-- The C `gss_shutdown`. -/
def gss_shutdown (K : Consts) (env : Env) (st : State) : Int × State :=
  let st := emit (Call.pil_force_shutdown "gss" (env.pil_force_shutdown "gss")) st
  let st := disable_irq_nosync K.GSS_A5_WDOG_EXPIRED st
  (0, st)

/-- The C `gss_powerup`. -/
def gss_powerup (K : Consts) (env : Env) (st : State) : Int × State :=
  let st := emit (Call.pil_force_boot "gss" (env.pil_force_boot "gss")) st
  let st := enable_irq K.GSS_A5_WDOG_EXPIRED st
  (0, st)

/-- The C `gss_crash_shutdown`. -/
def gss_crash_shutdown (K : Consts) (st : State) : State :=
  let st := { st with crash_shutdown := 1 }
  emit (Call.smsm_reset_modem K.SMSM_RESET) st

/-- The C `gss_ramdump`. -/
def gss_ramdump (env : Env) (enable : Int) (st : State) : Int × State :=
  if enable ≠ 0 then
    let ret := env.do_ramdump st.gss_data.gss_ramdump_dev gss_segments gss_segments.length
    let st := emit (Call.do_ramdump st.gss_data.gss_ramdump_dev gss_segments
      gss_segments.length) st
    if ret < 0 then
      (ret, emit (Call.pr_err (Msg.unable_to_dump_gss ret)) st)
    else
      let ret := env.do_ramdump st.gss_data.smem_ramdump_dev smem_segments
        smem_segments.length
      let st := emit (Call.do_ramdump st.gss_data.smem_ramdump_dev smem_segments
        smem_segments.length) st
      if ret < 0 then
        (ret, emit (Call.pr_err (Msg.unable_to_dump_smem ret)) st)
      else (ret, st)
  else (0, st)

/-- The C `gss_wdog_bite_irq`. -/
def gss_wdog_bite_irq (K : Consts) (_irq : Nat) (st : State) : irqreturn_t × State :=
  let st := (schedule_work st).2
  let st := disable_irq_nosync K.GSS_A5_WDOG_EXPIRED st
  (irqreturn_t.IRQ_HANDLED, st)

/-- The C `gss_open`. -/
def gss_open (env : Env) (st : State) : Int × State :=
  let ret := env.pil_get "gss"
  let st := emit (Call.pil_get "gss") st
  let st := { st with gss_data := { st.gss_data with pil_handle := ret } }
  let st := if ret = 0 then emit (Call.pr_debug Msg.pil_get_returned_null) st else st
  (0, st)

/-- The C `gss_release`. -/
def gss_release (st : State) : Int × State :=
  let st := emit (Call.pil_put st.gss_data.pil_handle) st
  let st := emit (Call.pr_debug Msg.pil_put_called) st
  (0, st)

/-- Modelled from the spec: the registration primitives called by
`gss_8064_init` are not in this file; a registration that succeeds leaves
the registered resource held by the module, one that fails leaves nothing. -/
def register (c : Call) (r : Resource) (ok : Bool) (st : State) : State :=
  let st := emit c st
  if ok then { st with held := st.held ++ [r] } else st

/-- The C `gss_subsystem_restart_init`: registers `gss_8064` (named "gss")
with the restart orchestrator. -/
def gss_subsystem_restart_init (env : Env) (st : State) : Int × State :=
  let ret := env.ssr_register_subsystem
  (ret, register (Call.ssr_register_subsystem "gss") (Resource.ssr_subsystem "gss")
    (decide (ret = 0)) st)

/-- The C `gss_8064_init`. -/
def gss_8064_init (K : Consts) (env : Env) (st : State) : Int × State :=
  if !env.cpu_is_apq8064 then (-K.ENODEV, st)
  else
    let ret := env.smsm_state_cb_register
    let st := register (Call.smsm_state_cb_register K.SMSM_MODEM_STATE K.SMSM_RESET)
      (Resource.smsm_callback K.SMSM_MODEM_STATE K.SMSM_RESET) (decide (0 ≤ ret)) st
    let st := if ret < 0 then emit (Call.pr_err (Msg.unable_to_register_smsm_cb ret)) st
      else st
    let ret := env.request_irq
    let st := register
      (Call.request_irq K.GSS_A5_WDOG_EXPIRED K.IRQF_TRIGGER_RISING "gss_a5_wdog")
      (Resource.irq K.GSS_A5_WDOG_EXPIRED) (decide (ret = 0)) st
    if ret < 0 then
      let st := emit (Call.pr_err (Msg.unable_to_request_wdog_irq ret)) st
      let st := disable_irq_nosync K.GSS_A5_WDOG_EXPIRED st
      (ret, st)
    else
      let (ret, st) := gss_subsystem_restart_init env st
      if ret < 0 then
        (ret, emit (Call.pr_err (Msg.unable_to_reg_ssr ret)) st)
      else
        let st := { st with gss_data := { st.gss_data with
          gss_dev := ⟨K.MISC_DYNAMIC_MINOR, "gss", "gss_file_ops"⟩ } }
        let ret := env.misc_register
        let st := register (Call.misc_register "gss") (Resource.misc_device "gss")
          (decide (ret = 0)) st
        if ret ≠ 0 then
          (ret, emit (Call.pr_err (Msg.misc_register_failed ret)) st)
        else
          let dev := env.create_ramdump_device "gss"
          let st := register (Call.create_ramdump_device "gss")
            (Resource.ramdump_device "gss" dev) (decide (dev ≠ 0)) st
          let st := { st with gss_data := { st.gss_data with gss_ramdump_dev := dev } }
          if dev = 0 then
            (-K.ENOMEM, emit (Call.pr_err (Msg.unable_to_create_gss_ramdump (-K.ENOMEM))) st)
          else
            let dev := env.create_ramdump_device "smem"
            let st := register (Call.create_ramdump_device "smem")
              (Resource.ramdump_device "smem" dev) (decide (dev ≠ 0)) st
            let st := { st with gss_data := { st.gss_data with smem_ramdump_dev := dev } }
            if dev = 0 then
              (-K.ENOMEM,
                emit (Call.pr_err (Msg.unable_to_create_smem_ramdump (-K.ENOMEM))) st)
            else
              (ret, emit (Call.pr_info Msg.driver_inited) st)

/-! ## Running the module -/

/-- The entry points of the module, as the kernel may invoke them. -/
inductive Op where
  | gss_shutdown
  | gss_powerup
  | gss_ramdump (enable : Int)
  | gss_wdog_bite_irq (irq : Nat)
  | gss_fatal_fn
  | gss_open
  | gss_release
  | smsm_state_cb (old_state : Nat) (new_state : Nat)
  | gss_crash_shutdown

/-- One invocation of an entry point, in an environment of its own. -/
def step (K : Consts) (env : Env) (op : Op) (st : State) : State :=
  match op with
  | Op.gss_shutdown => (gss_shutdown K env st).2
  | Op.gss_powerup => (gss_powerup K env st).2
  | Op.gss_ramdump enable => (gss_ramdump env enable st).2
  | Op.gss_wdog_bite_irq irq => (gss_wdog_bite_irq K irq st).2
  | Op.gss_fatal_fn => gss_fatal_fn K env st
  | Op.gss_open => (gss_open env st).2
  | Op.gss_release => (gss_release st).2
  | Op.smsm_state_cb old_state new_state => smsm_state_cb K old_state new_state st
  | Op.gss_crash_shutdown => gss_crash_shutdown K st

/-- A finite sequence of invocations, oldest first. -/
def run (K : Consts) : List (Env × Op) → State → State
  | [], st => st
  | (env, op) :: rest, st => run K rest (step K env op st)

/-- The watchdog interrupt handler invoked `n` times in a row, with the
value each invocation returned. -/
def wdog_bites (K : Consts) (irq : Nat) : Nat → State → List irqreturn_t × State
  | 0, st => ([], st)
  | n + 1, st =>
    let r := gss_wdog_bite_irq K irq st
    let rest := wdog_bites K irq n r.2
    (r.1 :: rest.1, rest.2)

/-- Modelled from the spec: the kernel's worker is not in this file; it
takes one queued instance of `gss_fatal_work`, clears the pending bit and
runs the work function `gss_fatal_fn`. -/
def process_one_work (K : Consts) (env : Env) (st : State) : State :=
  match st.work_queued with
  | 0 => st
  | q + 1 => gss_fatal_fn K env { st with work_queued := q, work_pending := false }

/-- The worker run for at most `fuel` items. -/
def run_worker (K : Consts) (env : Env) : Nat → State → State
  | 0, st => st
  | fuel + 1, st =>
    if st.work_queued = 0 then st
    else run_worker K env fuel (process_one_work K env st)

/-- The worker run until the queue is empty: `gss_fatal_fn` schedules no
work, so the queue length is fuel enough. -/
def flush_workqueue (K : Consts) (env : Env) (st : State) : State :=
  run_worker K env st.work_queued st

/-- The invariant of the work item: it is queued exactly when it is pending,
and then once. -/
def work_item_ok (st : State) : Prop :=
  st.work_queued = if st.work_pending then 1 else 0

/-- The resources held once the shared-state callback has been registered:
those held before, and the callback if its registration succeeded. -/
def held_after_smsm_cb (K : Consts) (env : Env) (st : State) : List Resource :=
  if 0 ≤ env.smsm_state_cb_register then
    st.held ++ [Resource.smsm_callback K.SMSM_MODEM_STATE K.SMSM_RESET]
  else st.held

/-- An environment in which every call succeeds and the shared state is 0. -/
def quietEnv : Env where
  smsm_get_state := fun _ => 0
  do_ramdump := fun _ _ _ => 0
  pil_get := fun _ => 0x5000
  pil_force_shutdown := fun _ => 0
  pil_force_boot := fun _ => 0
  cpu_is_apq8064 := true
  smsm_state_cb_register := 0
  request_irq := 0
  ssr_register_subsystem := 0
  misc_register := 0
  create_ramdump_device := fun name => if name = "gss" then 0x1000 else 0x2000

/-! ## The classification of section 4.2, in the spec's words -/

/-- Remote-fault: the bitmask has the reset bit or the system-download bit. -/
def spec_remote_fault (K : Consts) (v : Nat) : Prop :=
  v &&& K.SMSM_RESET ≠ 0 ∨ v &&& K.SMSM_SYSTEM_DOWNLOAD ≠ 0

/-- User-requested: the bitmask has the user-reboot or the user-powerdown
bit, and the remote-fault bits are absent. -/
def spec_user_requested (K : Consts) (v : Nat) : Prop :=
  (v &&& K.SMSM_SYSTEM_REBOOT_USR ≠ 0 ∨ v &&& K.SMSM_SYSTEM_PWRDWN_USR ≠ 0) ∧
    v &&& K.SMSM_RESET = 0 ∧ v &&& K.SMSM_SYSTEM_DOWNLOAD = 0

/-- Unknown / bus-hang: neither bit family is set. -/
def spec_unknown (K : Consts) (v : Nat) : Prop :=
  v &&& K.SMSM_RESET = 0 ∧ v &&& K.SMSM_SYSTEM_DOWNLOAD = 0 ∧
    v &&& K.SMSM_SYSTEM_REBOOT_USR = 0 ∧ v &&& K.SMSM_SYSTEM_PWRDWN_USR = 0

/-- The calls one run of `gss_fatal_fn` makes on the remote-fault path. -/
def remote_fault_calls (K : Consts) : List Call :=
  [Call.pr_err Msg.wdog_bite_received, Call.smsm_get_state K.SMSM_MODEM_STATE,
   Call.pr_err Msg.smsm_reset_calling_restart, Call.subsystem_restart "gss"]

/-- The calls one run of `gss_fatal_fn` makes on the user-requested path. -/
def user_requested_calls (K : Consts) : List Call :=
  [Call.pr_err Msg.wdog_bite_received, Call.smsm_get_state K.SMSM_MODEM_STATE,
   Call.pr_err Msg.user_invoked_reset, Call.kernel_restart]

/-- The calls one run of `gss_fatal_fn` makes on the unknown path. -/
def unknown_calls (K : Consts) : List Call :=
  [Call.pr_err Msg.wdog_bite_received, Call.smsm_get_state K.SMSM_MODEM_STATE,
   Call.subsystem_restart "gss"]

/-! ## Helper lemmas -/

theorem u32_of_lt {n : Nat} (h : n < 2 ^ 32) : u32 n = n :=
  Nat.mod_eq_of_lt h

/-- Truncating the mask does not change an AND with a 32-bit value. -/
theorem and_u32_of_lt {v : Nat} (m : Nat) (h : v < 2 ^ 32) : v &&& u32 m = v &&& m := by
  have hv : v % 2 ^ 32 = v := Nat.mod_eq_of_lt h
  calc v &&& u32 m = v &&& (m &&& (2 ^ 32 - 1)) := by
        rw [u32, Nat.and_pow_two_sub_one_eq_mod]
    _ = (v &&& (2 ^ 32 - 1)) &&& m := by
        rw [Nat.and_comm m, Nat.and_assoc]
    _ = v &&& m := by
        rw [Nat.and_pow_two_sub_one_eq_mod, hv]

/-- An AND with the union of two masks is non-zero exactly when one of the
two ANDs is. -/
theorem and_or_ne_zero (v a b : Nat) :
    v &&& (a ||| b) ≠ 0 ↔ v &&& a ≠ 0 ∨ v &&& b ≠ 0 := by
  rw [Nat.and_or_distrib_left]
  constructor
  · intro h
    by_contra hc
    push_neg at hc
    apply h
    rw [hc.1, hc.2]
    rfl
  · intro h hz
    have h1 : v &&& a = 0 := by
      apply Nat.eq_of_testBit_eq
      intro i
      have := congrArg (fun n => Nat.testBit n i) hz
      simp only [Nat.testBit_or, Nat.zero_testBit, Bool.or_eq_false_iff] at this
      simpa using this.1
    have h2 : v &&& b = 0 := by
      apply Nat.eq_of_testBit_eq
      intro i
      have := congrArg (fun n => Nat.testBit n i) hz
      simp only [Nat.testBit_or, Nat.zero_testBit, Bool.or_eq_false_iff] at this
      simpa using this.2
    rcases h with h | h
    · exact h h1
    · exact h h2

/-- The first test of `gss_fatal_fn`, in terms of the two panic bits. -/
theorem panic_test_iff (K : Consts) {v : Nat} (h : v < 2 ^ 32) :
    v &&& u32 (K.SMSM_RESET ||| K.SMSM_SYSTEM_DOWNLOAD) ≠ 0 ↔ spec_remote_fault K v := by
  rw [and_u32_of_lt _ h, and_or_ne_zero]
  rfl

/-- The second test of `gss_fatal_fn`, in terms of the two user bits. -/
theorem reset_test_iff (K : Consts) {v : Nat} (h : v < 2 ^ 32) :
    v &&& u32 (K.SMSM_SYSTEM_REBOOT_USR ||| K.SMSM_SYSTEM_PWRDWN_USR) ≠ 0 ↔
      (v &&& K.SMSM_SYSTEM_REBOOT_USR ≠ 0 ∨ v &&& K.SMSM_SYSTEM_PWRDWN_USR ≠ 0) := by
  rw [and_u32_of_lt _ h, and_or_ne_zero]

/-- The trace of `gss_fatal_fn` on its first branch. -/
theorem gss_fatal_fn_trace_panic (K : Consts) (env : Env) (st : State)
    (h : u32 (env.smsm_get_state K.SMSM_MODEM_STATE) &&&
      u32 (K.SMSM_RESET ||| K.SMSM_SYSTEM_DOWNLOAD) ≠ 0) :
    (gss_fatal_fn K env st).trace = st.trace ++ remote_fault_calls K := by
  simp [gss_fatal_fn, h, emit, remote_fault_calls]

/-- The trace of `gss_fatal_fn` on its second branch. -/
theorem gss_fatal_fn_trace_reset (K : Consts) (env : Env) (st : State)
    (h1 : u32 (env.smsm_get_state K.SMSM_MODEM_STATE) &&&
      u32 (K.SMSM_RESET ||| K.SMSM_SYSTEM_DOWNLOAD) = 0)
    (h2 : u32 (env.smsm_get_state K.SMSM_MODEM_STATE) &&&
      u32 (K.SMSM_SYSTEM_REBOOT_USR ||| K.SMSM_SYSTEM_PWRDWN_USR) ≠ 0) :
    (gss_fatal_fn K env st).trace = st.trace ++ user_requested_calls K := by
  simp [gss_fatal_fn, h1, h2, emit, user_requested_calls]

/-- The trace of `gss_fatal_fn` on its last branch. -/
theorem gss_fatal_fn_trace_else (K : Consts) (env : Env) (st : State)
    (h1 : u32 (env.smsm_get_state K.SMSM_MODEM_STATE) &&&
      u32 (K.SMSM_RESET ||| K.SMSM_SYSTEM_DOWNLOAD) = 0)
    (h2 : u32 (env.smsm_get_state K.SMSM_MODEM_STATE) &&&
      u32 (K.SMSM_SYSTEM_REBOOT_USR ||| K.SMSM_SYSTEM_PWRDWN_USR) = 0) :
    (gss_fatal_fn K env st).trace = st.trace ++ unknown_calls K := by
  simp [gss_fatal_fn, h1, h2, emit, unknown_calls]

theorem subsystem_restart_calls_remote (K : Consts) (tr : List Call) :
    subsystem_restart_calls "gss" (tr ++ remote_fault_calls K) =
      subsystem_restart_calls "gss" tr + 1 ∧
    kernel_restart_calls (tr ++ remote_fault_calls K) = kernel_restart_calls tr := by
  simp [subsystem_restart_calls, kernel_restart_calls, remote_fault_calls, List.count_cons]

theorem subsystem_restart_calls_user (K : Consts) (tr : List Call) :
    subsystem_restart_calls "gss" (tr ++ user_requested_calls K) =
      subsystem_restart_calls "gss" tr ∧
    kernel_restart_calls (tr ++ user_requested_calls K) = kernel_restart_calls tr + 1 := by
  simp [subsystem_restart_calls, kernel_restart_calls, user_requested_calls, List.count_cons]

theorem subsystem_restart_calls_unknown (K : Consts) (tr : List Call) :
    subsystem_restart_calls "gss" (tr ++ unknown_calls K) =
      subsystem_restart_calls "gss" tr + 1 ∧
    kernel_restart_calls (tr ++ unknown_calls K) = kernel_restart_calls tr := by
  simp [subsystem_restart_calls, kernel_restart_calls, unknown_calls, List.count_cons]

/-! ## The fault classification of `gss_fatal_fn` -/

/-- C1: for every 32-bit status bitmask returned by `smsm_get_state` that has
the SMSM_RESET bit or the SMSM_SYSTEM_DOWNLOAD bit set, whatever its other
bits, one run of `gss_fatal_fn` takes the remote-fault path: it calls
`subsystem_restart("gss")` exactly once and never calls `kernel_restart`. -/
theorem gss_fatal_fn_remote_fault (K : Consts) (env : Env) (st : State) (v : Nat)
    (hv : v < 2 ^ 32) (hget : env.smsm_get_state K.SMSM_MODEM_STATE = v)
    (hbits : v &&& K.SMSM_RESET ≠ 0 ∨ v &&& K.SMSM_SYSTEM_DOWNLOAD ≠ 0) :
    (gss_fatal_fn K env st).trace = st.trace ++ remote_fault_calls K ∧
    subsystem_restart_calls "gss" (gss_fatal_fn K env st).trace =
      subsystem_restart_calls "gss" st.trace + 1 ∧
    kernel_restart_calls (gss_fatal_fn K env st).trace = kernel_restart_calls st.trace := by
  have h1 : u32 (env.smsm_get_state K.SMSM_MODEM_STATE) &&&
      u32 (K.SMSM_RESET ||| K.SMSM_SYSTEM_DOWNLOAD) ≠ 0 := by
    rw [hget, u32_of_lt hv]
    exact (panic_test_iff K hv).2 hbits
  have ht := gss_fatal_fn_trace_panic K env st h1
  rw [ht]
  exact ⟨rfl, subsystem_restart_calls_remote K st.trace⟩

/-- C1 at a bitmask with the reset bit and the user-reboot bit both set. -/
theorem gss_fatal_fn_remote_fault_witness :
    (0x20000040 : Nat) < 2 ^ 32 ∧
    ({ quietEnv with smsm_get_state := fun _ => 0x20000040 } : Env).smsm_get_state
      msmConsts.SMSM_MODEM_STATE = 0x20000040 ∧
    ((0x20000040 : Nat) &&& msmConsts.SMSM_RESET ≠ 0 ∨
      (0x20000040 : Nat) &&& msmConsts.SMSM_SYSTEM_DOWNLOAD ≠ 0) ∧
    subsystem_restart_calls "gss" (gss_fatal_fn msmConsts
      { quietEnv with smsm_get_state := fun _ => 0x20000040 } State.boot).trace =
      subsystem_restart_calls "gss" State.boot.trace + 1 ∧
    kernel_restart_calls (gss_fatal_fn msmConsts
      { quietEnv with smsm_get_state := fun _ => 0x20000040 } State.boot).trace =
      kernel_restart_calls State.boot.trace :=
  ⟨by decide, rfl, Or.inl (by decide),
    (gss_fatal_fn_remote_fault msmConsts
      { quietEnv with smsm_get_state := fun _ => 0x20000040 } State.boot 0x20000040
      (by decide) rfl (Or.inl (by decide))).2⟩

/-- C2: for every 32-bit status bitmask that has the SMSM_SYSTEM_REBOOT_USR
bit or the SMSM_SYSTEM_PWRDWN_USR bit set and neither SMSM_RESET nor
SMSM_SYSTEM_DOWNLOAD, one run of `gss_fatal_fn` takes the user-requested
path: it calls `kernel_restart` exactly once and does not call
`subsystem_restart`. -/
theorem gss_fatal_fn_user_requested (K : Consts) (env : Env) (st : State) (v : Nat)
    (hv : v < 2 ^ 32) (hget : env.smsm_get_state K.SMSM_MODEM_STATE = v)
    (huser : v &&& K.SMSM_SYSTEM_REBOOT_USR ≠ 0 ∨ v &&& K.SMSM_SYSTEM_PWRDWN_USR ≠ 0)
    (hreset : v &&& K.SMSM_RESET = 0) (hdownload : v &&& K.SMSM_SYSTEM_DOWNLOAD = 0) :
    (gss_fatal_fn K env st).trace = st.trace ++ user_requested_calls K ∧
    kernel_restart_calls (gss_fatal_fn K env st).trace =
      kernel_restart_calls st.trace + 1 ∧
    ∀ name, subsystem_restart_calls name (gss_fatal_fn K env st).trace =
      subsystem_restart_calls name st.trace := by
  have h1 : u32 (env.smsm_get_state K.SMSM_MODEM_STATE) &&&
      u32 (K.SMSM_RESET ||| K.SMSM_SYSTEM_DOWNLOAD) = 0 := by
    rw [hget, u32_of_lt hv]
    by_contra hc
    rcases (panic_test_iff K hv).1 hc with h | h
    · exact h hreset
    · exact h hdownload
  have h2 : u32 (env.smsm_get_state K.SMSM_MODEM_STATE) &&&
      u32 (K.SMSM_SYSTEM_REBOOT_USR ||| K.SMSM_SYSTEM_PWRDWN_USR) ≠ 0 := by
    rw [hget, u32_of_lt hv]
    exact (reset_test_iff K hv).2 huser
  have ht := gss_fatal_fn_trace_reset K env st h1 h2
  rw [ht]
  refine ⟨rfl, (subsystem_restart_calls_user K st.trace).2, ?_⟩
  intro name
  simp [subsystem_restart_calls, user_requested_calls, List.count_cons]

/-- C2 at the bitmask holding the user-powerdown bit alone. -/
theorem gss_fatal_fn_user_requested_witness :
    (0x40000000 : Nat) < 2 ^ 32 ∧
    ((0x40000000 : Nat) &&& msmConsts.SMSM_SYSTEM_REBOOT_USR ≠ 0 ∨
      (0x40000000 : Nat) &&& msmConsts.SMSM_SYSTEM_PWRDWN_USR ≠ 0) ∧
    (0x40000000 : Nat) &&& msmConsts.SMSM_RESET = 0 ∧
    (0x40000000 : Nat) &&& msmConsts.SMSM_SYSTEM_DOWNLOAD = 0 ∧
    kernel_restart_calls (gss_fatal_fn msmConsts
      { quietEnv with smsm_get_state := fun _ => 0x40000000 } State.boot).trace =
      kernel_restart_calls State.boot.trace + 1 ∧
    ∀ name, subsystem_restart_calls name (gss_fatal_fn msmConsts
      { quietEnv with smsm_get_state := fun _ => 0x40000000 } State.boot).trace =
      subsystem_restart_calls name State.boot.trace :=
  ⟨by decide, Or.inr (by decide), by decide, by decide,
    (gss_fatal_fn_user_requested msmConsts
      { quietEnv with smsm_get_state := fun _ => 0x40000000 } State.boot 0x40000000
      (by decide) rfl (Or.inr (by decide)) (by decide) (by decide)).2⟩

/-- C3: for every status bitmask with none of the four bits set (the zero
bitmask in particular), one run of `gss_fatal_fn` takes the unknown /
bus-hang path: it calls `subsystem_restart("gss")` exactly once and does not
call `kernel_restart`.  Moreover every bitmask falls in exactly one of the
three classes, the run issues the calls of that class, and it makes exactly
one recovery call (`subsystem_restart` or `kernel_restart`). -/
theorem gss_fatal_fn_unknown (K : Consts) (env : Env) (st : State) (v : Nat)
    (hv : v < 2 ^ 32) (hget : env.smsm_get_state K.SMSM_MODEM_STATE = v) :
    (spec_unknown K v →
      (gss_fatal_fn K env st).trace = st.trace ++ unknown_calls K ∧
      subsystem_restart_calls "gss" (gss_fatal_fn K env st).trace =
        subsystem_restart_calls "gss" st.trace + 1 ∧
      kernel_restart_calls (gss_fatal_fn K env st).trace = kernel_restart_calls st.trace) ∧
    ((spec_remote_fault K v ∧
        (gss_fatal_fn K env st).trace = st.trace ++ remote_fault_calls K) ∨
      (spec_user_requested K v ∧
        (gss_fatal_fn K env st).trace = st.trace ++ user_requested_calls K) ∨
      (spec_unknown K v ∧
        (gss_fatal_fn K env st).trace = st.trace ++ unknown_calls K)) ∧
    (¬ (spec_remote_fault K v ∧ spec_user_requested K v) ∧
      ¬ (spec_remote_fault K v ∧ spec_unknown K v) ∧
      ¬ (spec_user_requested K v ∧ spec_unknown K v)) ∧
    subsystem_restart_calls "gss" (gss_fatal_fn K env st).trace +
        kernel_restart_calls (gss_fatal_fn K env st).trace =
      subsystem_restart_calls "gss" st.trace + kernel_restart_calls st.trace + 1 := by
  have hp := panic_test_iff K hv
  have hr := reset_test_iff K hv
  have hu : u32 (env.smsm_get_state K.SMSM_MODEM_STATE) = v := by
    rw [hget, u32_of_lt hv]
  have excl : ¬ (spec_remote_fault K v ∧ spec_user_requested K v) ∧
      ¬ (spec_remote_fault K v ∧ spec_unknown K v) ∧
      ¬ (spec_user_requested K v ∧ spec_unknown K v) := by
    unfold spec_remote_fault spec_user_requested spec_unknown
    refine ⟨?_, ?_, ?_⟩
    · rintro ⟨h | h, _, h1, h2⟩
      · exact h h1
      · exact h h2
    · rintro ⟨h | h, h1, h2, _⟩
      · exact h h1
      · exact h h2
    · rintro ⟨⟨h | h, _⟩, _, _, h3, h4⟩
      · exact h h3
      · exact h h4
  by_cases c1 : v &&& u32 (K.SMSM_RESET ||| K.SMSM_SYSTEM_DOWNLOAD) ≠ 0
  · have hrem : spec_remote_fault K v := hp.1 c1
    have ht := gss_fatal_fn_trace_panic K env st (by rw [hu]; exact c1)
    have hc := subsystem_restart_calls_remote K st.trace
    refine ⟨fun hunk => absurd ⟨hrem, hunk⟩ excl.2.1, Or.inl ⟨hrem, ht⟩, excl, ?_⟩
    rw [ht, hc.1, hc.2]
    omega
  · have c1z : v &&& u32 (K.SMSM_RESET ||| K.SMSM_SYSTEM_DOWNLOAD) = 0 := by
      by_contra hc
      exact c1 hc
    have hnrem : ¬ spec_remote_fault K v := fun h => c1 (hp.2 h)
    have hz : v &&& K.SMSM_RESET = 0 ∧ v &&& K.SMSM_SYSTEM_DOWNLOAD = 0 := by
      unfold spec_remote_fault at hnrem
      push_neg at hnrem
      exact hnrem
    by_cases c2 : v &&& u32 (K.SMSM_SYSTEM_REBOOT_USR ||| K.SMSM_SYSTEM_PWRDWN_USR) ≠ 0
    · have husr : spec_user_requested K v := ⟨hr.1 c2, hz.1, hz.2⟩
      have ht := gss_fatal_fn_trace_reset K env st (by rw [hu]; exact c1z)
        (by rw [hu]; exact c2)
      have hc := subsystem_restart_calls_user K st.trace
      refine ⟨fun hunk => absurd ⟨husr, hunk⟩ excl.2.2, Or.inr (Or.inl ⟨husr, ht⟩), excl, ?_⟩
      rw [ht, hc.1, hc.2]
      omega
    · have c2z : v &&& u32 (K.SMSM_SYSTEM_REBOOT_USR ||| K.SMSM_SYSTEM_PWRDWN_USR) = 0 := by
        by_contra hc
        exact c2 hc
      have hnu : ¬ (v &&& K.SMSM_SYSTEM_REBOOT_USR ≠ 0 ∨ v &&& K.SMSM_SYSTEM_PWRDWN_USR ≠ 0) :=
        fun h => c2 (hr.2 h)
      push_neg at hnu
      have hunk : spec_unknown K v := ⟨hz.1, hz.2, hnu.1, hnu.2⟩
      have ht := gss_fatal_fn_trace_else K env st (by rw [hu]; exact c1z)
        (by rw [hu]; exact c2z)
      have hc := subsystem_restart_calls_unknown K st.trace
      refine ⟨fun _ => ⟨ht, by rw [ht]; exact hc⟩, Or.inr (Or.inr ⟨hunk, ht⟩), excl, ?_⟩
      rw [ht, hc.1, hc.2]
      omega

/-- C3 at the zero bitmask. -/
theorem gss_fatal_fn_unknown_witness :
    (0 : Nat) < 2 ^ 32 ∧ quietEnv.smsm_get_state msmConsts.SMSM_MODEM_STATE = 0 ∧
    spec_unknown msmConsts 0 ∧
    (gss_fatal_fn msmConsts quietEnv State.boot).trace =
      State.boot.trace ++ unknown_calls msmConsts ∧
    subsystem_restart_calls "gss" (gss_fatal_fn msmConsts quietEnv State.boot).trace =
      subsystem_restart_calls "gss" State.boot.trace + 1 ∧
    kernel_restart_calls (gss_fatal_fn msmConsts quietEnv State.boot).trace =
      kernel_restart_calls State.boot.trace :=
  ⟨by decide, rfl, ⟨by decide, by decide, by decide, by decide⟩,
    (gss_fatal_fn_unknown msmConsts quietEnv State.boot 0 (by decide) rfl).1
      ⟨by decide, by decide, by decide, by decide⟩⟩

/-! ## The self-inflicted-reset flag -/

theorem emit_crash_shutdown (c : Call) (st : State) :
    (emit c st).crash_shutdown = st.crash_shutdown := rfl

theorem disable_irq_nosync_crash_shutdown (irq : Nat) (st : State) :
    (disable_irq_nosync irq st).crash_shutdown = st.crash_shutdown := rfl

theorem enable_irq_crash_shutdown (irq : Nat) (st : State) :
    (enable_irq irq st).crash_shutdown = st.crash_shutdown := by
  unfold enable_irq
  simp only
  split <;> rfl

theorem schedule_work_crash_shutdown (st : State) :
    (schedule_work st).2.crash_shutdown = st.crash_shutdown := by
  unfold schedule_work
  simp only
  split <;> rfl

theorem gss_fatal_fn_crash_shutdown (K : Consts) (env : Env) (st : State) :
    (gss_fatal_fn K env st).crash_shutdown = st.crash_shutdown := by
  unfold gss_fatal_fn
  simp only
  split
  · rfl
  · split <;> rfl

theorem gss_ramdump_crash_shutdown (env : Env) (enable : Int) (st : State) :
    (gss_ramdump env enable st).2.crash_shutdown = st.crash_shutdown := by
  unfold gss_ramdump
  simp only
  split
  · split
    · rfl
    · split <;> rfl
  · rfl

theorem gss_open_crash_shutdown (env : Env) (st : State) :
    (gss_open env st).2.crash_shutdown = st.crash_shutdown := by
  unfold gss_open
  simp only
  split <;> rfl

theorem smsm_state_cb_crash_shutdown (K : Consts) (o n : Nat) (st : State) :
    (smsm_state_cb K o n st).crash_shutdown = st.crash_shutdown := by
  unfold smsm_state_cb
  split
  · rfl
  · split <;> rfl

/-- No entry point clears the flag: every step either keeps the value of
`crash_shutdown` or stores 1. -/
theorem step_crash_shutdown (K : Consts) (env : Env) (op : Op) (st : State) :
    (step K env op st).crash_shutdown = st.crash_shutdown ∨
      (step K env op st).crash_shutdown = 1 := by
  cases op with
  | gss_shutdown => exact Or.inl rfl
  | gss_powerup =>
    left
    show (enable_irq K.GSS_A5_WDOG_EXPIRED _).crash_shutdown = _
    rw [enable_irq_crash_shutdown]
    rfl
  | gss_ramdump enable => exact Or.inl (gss_ramdump_crash_shutdown env enable st)
  | gss_wdog_bite_irq irq =>
    left
    show (disable_irq_nosync K.GSS_A5_WDOG_EXPIRED (schedule_work st).2).crash_shutdown = _
    rw [disable_irq_nosync_crash_shutdown, schedule_work_crash_shutdown]
  | gss_fatal_fn => exact Or.inl (gss_fatal_fn_crash_shutdown K env st)
  | gss_open => exact Or.inl (gss_open_crash_shutdown env st)
  | gss_release => exact Or.inl rfl
  | smsm_state_cb o n => exact Or.inl (smsm_state_cb_crash_shutdown K o n st)
  | gss_crash_shutdown => exact Or.inr rfl

/-- Once set, the flag is still 1 after any sequence of entry points. -/
theorem run_crash_shutdown (K : Consts) (ops : List (Env × Op)) (st : State)
    (h : st.crash_shutdown = 1) : (run K ops st).crash_shutdown = 1 := by
  induction ops generalizing st with
  | nil => exact h
  | cons hd tl ih =>
    obtain ⟨env, op⟩ := hd
    apply ih
    rcases step_crash_shutdown K env op st with h1 | h1
    · rw [h1, h]
    · exact h1

/-- C4: from any module state, after `gss_crash_shutdown` and after any
finite sequence of the module's entry points, `smsm_state_cb` with any
old and new state (SMSM_RESET included) is a no-op: the flag is still 1, the
state and the trace are unchanged and `subsystem_restart` is called 0 more
times.  The empty sequence is the immediate case. -/
theorem smsm_state_cb_after_crash_shutdown (K : Consts) (st : State)
    (ops : List (Env × Op)) (old_state new_state : Nat) :
    (run K ops (gss_crash_shutdown K st)).crash_shutdown = 1 ∧
    smsm_state_cb K old_state new_state (run K ops (gss_crash_shutdown K st)) =
      run K ops (gss_crash_shutdown K st) ∧
    (smsm_state_cb K old_state new_state (run K ops (gss_crash_shutdown K st))).trace =
      (run K ops (gss_crash_shutdown K st)).trace ∧
    ∀ name, subsystem_restart_calls name
        (smsm_state_cb K old_state new_state (run K ops (gss_crash_shutdown K st))).trace =
      subsystem_restart_calls name (run K ops (gss_crash_shutdown K st)).trace := by
  have hflag : (run K ops (gss_crash_shutdown K st)).crash_shutdown = 1 :=
    run_crash_shutdown K ops _ rfl
  have hnoop : smsm_state_cb K old_state new_state (run K ops (gss_crash_shutdown K st)) =
      run K ops (gss_crash_shutdown K st) := by
    unfold smsm_state_cb
    rw [if_pos (by rw [hflag]; decide)]
  refine ⟨hflag, hnoop, ?_, ?_⟩
  · rw [hnoop]
  · intro name
    rw [hnoop]

/-! ## Crash-memory capture and shutdown -/

/-- C5: for every negative error code `e`, when `gss_ramdump` is called with
`enable` non-zero and `do_ramdump` returns `e` for the first region
(`gss_segments` on `gss_ramdump_dev`), `gss_ramdump` returns exactly `e`,
makes exactly one `do_ramdump` call, and makes no call for `smem_segments`. -/
theorem gss_ramdump_first_failure (env : Env) (st : State) (enable : Int) (e : Int)
    (hen : enable ≠ 0) (he : e < 0)
    (hfirst : env.do_ramdump st.gss_data.gss_ramdump_dev gss_segments
      gss_segments.length = e) :
    (gss_ramdump env enable st).1 = e ∧
    (gss_ramdump env enable st).2.trace = st.trace ++
      [Call.do_ramdump st.gss_data.gss_ramdump_dev gss_segments gss_segments.length,
       Call.pr_err (Msg.unable_to_dump_gss e)] ∧
    do_ramdump_calls (gss_ramdump env enable st).2.trace = do_ramdump_calls st.trace + 1 ∧
    ∀ dev n, Call.do_ramdump dev smem_segments n ∉
      [Call.do_ramdump st.gss_data.gss_ramdump_dev gss_segments gss_segments.length,
       Call.pr_err (Msg.unable_to_dump_gss e)] := by
  have hr : gss_ramdump env enable st =
      (e, emit (Call.pr_err (Msg.unable_to_dump_gss e))
        (emit (Call.do_ramdump st.gss_data.gss_ramdump_dev gss_segments
          gss_segments.length) st)) := by
    unfold gss_ramdump
    simp only [hen, ne_eq, not_false_eq_true, if_true, hfirst, he]
  rw [hr]
  refine ⟨rfl, ?_, ?_, ?_⟩
  · simp [emit]
  · simp [emit, do_ramdump_calls, List.filter_cons]
  · intro dev n
    simp [gss_segments, smem_segments]

/-- C5 with the first snapshot failing with -5. -/
theorem gss_ramdump_first_failure_witness :
    (1 : Int) ≠ 0 ∧ (-5 : Int) < 0 ∧
    ({ quietEnv with do_ramdump := fun _ _ _ => -5 } : Env).do_ramdump
      State.boot.gss_data.gss_ramdump_dev gss_segments gss_segments.length = -5 ∧
    (gss_ramdump { quietEnv with do_ramdump := fun _ _ _ => -5 } 1 State.boot).1 = -5 ∧
    do_ramdump_calls
      (gss_ramdump { quietEnv with do_ramdump := fun _ _ _ => -5 } 1 State.boot).2.trace =
      do_ramdump_calls State.boot.trace + 1 :=
  have h := gss_ramdump_first_failure { quietEnv with do_ramdump := fun _ _ _ => -5 }
    State.boot 1 (-5) (by decide) (by decide) rfl
  ⟨by decide, by decide, rfl, h.1, h.2.2.1⟩

/-- C6: for every module state and every behaviour of the snapshot writer,
`gss_ramdump` with `enable = 0` returns 0, makes no `do_ramdump` call (no
call at all) and leaves the state unchanged. -/
theorem gss_ramdump_disabled (env : Env) (st : State) :
    (gss_ramdump env 0 st).1 = 0 ∧ (gss_ramdump env 0 st).2 = st ∧
    (gss_ramdump env 0 st).2.trace = st.trace ∧
    do_ramdump_calls (gss_ramdump env 0 st).2.trace = do_ramdump_calls st.trace :=
  ⟨rfl, rfl, rfl, rfl⟩

/-- C7: for every module state and every outcome of `pil_force_shutdown("gss")`,
`gss_shutdown` first issues the force-shutdown call, then masks the watchdog
interrupt with one `disable_irq_nosync(GSS_A5_WDOG_EXPIRED)` (the disable
depth of the line goes up by one, so the line is masked), and returns 0. -/
theorem gss_shutdown_masks_and_succeeds (K : Consts) (env : Env) (st : State) :
    (gss_shutdown K env st).1 = 0 ∧
    (gss_shutdown K env st).2.trace = st.trace ++
      [Call.pil_force_shutdown "gss" (env.pil_force_shutdown "gss"),
       Call.disable_irq_nosync K.GSS_A5_WDOG_EXPIRED] ∧
    (gss_shutdown K env st).2.irq_depth K.GSS_A5_WDOG_EXPIRED =
      st.irq_depth K.GSS_A5_WDOG_EXPIRED + 1 ∧
    irq_unmasked K.GSS_A5_WDOG_EXPIRED (gss_shutdown K env st).2 = false := by
  refine ⟨rfl, ?_, ?_, ?_⟩
  · simp [gss_shutdown, disable_irq_nosync, emit]
  · simp [gss_shutdown, disable_irq_nosync, emit]
  · simp [gss_shutdown, disable_irq_nosync, emit, irq_unmasked]

/-! ## The interrupt-to-work handoff -/

theorem gss_fatal_fn_work_queued (K : Consts) (env : Env) (st : State) :
    (gss_fatal_fn K env st).work_queued = st.work_queued ∧
      (gss_fatal_fn K env st).work_pending = st.work_pending := by
  unfold gss_fatal_fn
  simp only
  split
  · exact ⟨rfl, rfl⟩
  · split <;> exact ⟨rfl, rfl⟩

/-- Each run of `gss_fatal_fn` is counted once. -/
theorem gss_fatal_fn_runs_succ (K : Consts) (env : Env) (st : State) :
    gss_fatal_fn_runs (gss_fatal_fn K env st).trace = gss_fatal_fn_runs st.trace + 1 := by
  unfold gss_fatal_fn
  simp only
  split
  · simp [gss_fatal_fn_runs, emit, List.count_cons]
  · split <;> simp [gss_fatal_fn_runs, emit, List.count_cons]

/-- One watchdog interrupt: the work item is pending afterwards, it is
queued once more only if it was not pending, and `gss_fatal_fn` has not run. -/
theorem gss_wdog_bite_irq_effect (K : Consts) (irq : Nat) (st : State) :
    (gss_wdog_bite_irq K irq st).1 = irqreturn_t.IRQ_HANDLED ∧
    (gss_wdog_bite_irq K irq st).2.work_pending = true ∧
    (gss_wdog_bite_irq K irq st).2.work_queued =
      (if st.work_pending then st.work_queued else st.work_queued + 1) ∧
    gss_fatal_fn_runs (gss_wdog_bite_irq K irq st).2.trace = gss_fatal_fn_runs st.trace := by
  unfold gss_wdog_bite_irq schedule_work disable_irq_nosync
  cases hp : st.work_pending <;>
    simp [emit, hp, gss_fatal_fn_runs, List.count_cons]

theorem wdog_bites_effect (K : Consts) (irq : Nat) (n : Nat) (st : State)
    (hinv : work_item_ok st) (hn : 1 ≤ n) :
    (wdog_bites K irq n st).1 = List.replicate n irqreturn_t.IRQ_HANDLED ∧
    (wdog_bites K irq n st).2.work_pending = true ∧
    (wdog_bites K irq n st).2.work_queued = 1 ∧
    gss_fatal_fn_runs (wdog_bites K irq n st).2.trace = gss_fatal_fn_runs st.trace := by
  induction n generalizing st with
  | zero => omega
  | succ m ih =>
    have h1 := gss_wdog_bite_irq_effect K irq st
    have hq : (gss_wdog_bite_irq K irq st).2.work_queued = 1 := by
      rw [h1.2.2.1]
      unfold work_item_ok at hinv
      cases hp : st.work_pending <;> simp [hp] at hinv ⊢ <;> omega
    have hinv1 : work_item_ok (gss_wdog_bite_irq K irq st).2 := by
      unfold work_item_ok
      rw [h1.2.1, hq]
      rfl
    rcases Nat.eq_zero_or_pos m with hm | hm
    · subst hm
      simp only [wdog_bites]
      exact ⟨by rw [h1.1]; rfl, h1.2.1, hq, h1.2.2.2⟩
    · have h2 := ih (gss_wdog_bite_irq K irq st).2 hinv1 hm
      simp only [wdog_bites]
      refine ⟨?_, h2.2.1, h2.2.2.1, ?_⟩
      · rw [h1.1, h2.1]
        rfl
      · rw [h2.2.2.2, h1.2.2.2]

/-- Draining a queue that holds the work item once runs `gss_fatal_fn` once. -/
theorem flush_workqueue_one (K : Consts) (env : Env) (st : State)
    (hq : st.work_queued = 1) :
    gss_fatal_fn_runs (flush_workqueue K env st).trace = gss_fatal_fn_runs st.trace + 1 ∧
    (flush_workqueue K env st).work_queued = 0 ∧
    (flush_workqueue K env st).work_pending = false := by
  have hf : flush_workqueue K env st =
      gss_fatal_fn K env { st with work_queued := 0, work_pending := false } := by
    unfold flush_workqueue
    rw [hq]
    simp [run_worker, process_one_work, hq]
  rw [hf]
  have h1 := gss_fatal_fn_work_queued K env { st with work_queued := 0, work_pending := false }
  exact ⟨gss_fatal_fn_runs_succ K env _, h1.1, h1.2⟩

/-- C8: with `schedule_work` setting the pending bit of `gss_fatal_work` and
enqueueing only if it was clear, `n >= 1` invocations of `gss_wdog_bite_irq`
with no run of the work in between (three in particular) each return
IRQ_HANDLED, leave the item queued once, and draining the queue then
executes `gss_fatal_fn` exactly once. -/
theorem wdog_bites_coalesce (K : Consts) (env : Env) (st : State) (irq : Nat) (n : Nat)
    (hinv : work_item_ok st) (hn : 1 ≤ n) :
    (wdog_bites K irq n st).1 = List.replicate n irqreturn_t.IRQ_HANDLED ∧
    (wdog_bites K irq n st).2.work_queued = 1 ∧
    gss_fatal_fn_runs (wdog_bites K irq n st).2.trace = gss_fatal_fn_runs st.trace ∧
    gss_fatal_fn_runs (flush_workqueue K env (wdog_bites K irq n st).2).trace =
      gss_fatal_fn_runs st.trace + 1 ∧
    (flush_workqueue K env (wdog_bites K irq n st).2).work_queued = 0 ∧
    (flush_workqueue K env (wdog_bites K irq n st).2).work_pending = false := by
  have h := wdog_bites_effect K irq n st hinv hn
  have hf := flush_workqueue_one K env (wdog_bites K irq n st).2 h.2.2.1
  refine ⟨h.1, h.2.2.1, h.2.2.2, ?_, hf.2.1, hf.2.2⟩
  rw [hf.1, h.2.2.2]

/-- C8 for three watchdog interrupts after module load. -/
theorem wdog_bites_coalesce_witness :
    work_item_ok State.boot ∧ 1 ≤ 3 ∧
    (wdog_bites msmConsts msmConsts.GSS_A5_WDOG_EXPIRED 3 State.boot).1 =
      [irqreturn_t.IRQ_HANDLED, irqreturn_t.IRQ_HANDLED, irqreturn_t.IRQ_HANDLED] ∧
    gss_fatal_fn_runs (flush_workqueue msmConsts quietEnv
      (wdog_bites msmConsts msmConsts.GSS_A5_WDOG_EXPIRED 3 State.boot).2).trace = 1 :=
  have h := wdog_bites_coalesce msmConsts quietEnv State.boot
    msmConsts.GSS_A5_WDOG_EXPIRED 3 rfl (by decide)
  ⟨rfl, by decide, h.1, h.2.2.2.1⟩

/-! ## Module initialisation -/

/-- The resources held once the callback step is over are those held
before, possibly with the callback added. -/
theorem held_prefix_after_smsm_cb (K : Consts) (env : Env) (st : State) :
    st.held <+: held_after_smsm_cb K env st := by
  unfold held_after_smsm_cb
  split
  · exact List.prefix_append _ _
  · exact List.prefix_refl _

/-- C9, as the code has it: in every run of `gss_8064_init` on an apq8064 in
which `request_irq` succeeded and a later registration step fails, init
returns the failing step's code (the negative `ssr_register_subsystem` code,
the non-zero `misc_register` code, `-ENOMEM` when `create_ramdump_device`
returns NULL) and releases nothing: every resource acquired earlier in the
run is still held on return. -/
theorem gss_8064_init_failure_keeps_resources (K : Consts) (env : Env) (st : State)
    (hcpu : env.cpu_is_apq8064 = true) (hirq : env.request_irq = 0) :
    (env.ssr_register_subsystem < 0 →
      (gss_8064_init K env st).1 = env.ssr_register_subsystem ∧
      (gss_8064_init K env st).1 < 0 ∧
      (gss_8064_init K env st).2.held =
        held_after_smsm_cb K env st ++ [Resource.irq K.GSS_A5_WDOG_EXPIRED]) ∧
    (env.ssr_register_subsystem = 0 → env.misc_register ≠ 0 →
      (gss_8064_init K env st).1 = env.misc_register ∧
      (gss_8064_init K env st).1 ≠ 0 ∧
      (gss_8064_init K env st).2.held =
        held_after_smsm_cb K env st ++
          [Resource.irq K.GSS_A5_WDOG_EXPIRED, Resource.ssr_subsystem "gss"]) ∧
    (env.ssr_register_subsystem = 0 → env.misc_register = 0 →
      env.create_ramdump_device "gss" = 0 →
      (gss_8064_init K env st).1 = -K.ENOMEM ∧
      (gss_8064_init K env st).2.held =
        held_after_smsm_cb K env st ++
          [Resource.irq K.GSS_A5_WDOG_EXPIRED, Resource.ssr_subsystem "gss",
           Resource.misc_device "gss"]) ∧
    (env.ssr_register_subsystem = 0 → env.misc_register = 0 →
      env.create_ramdump_device "gss" ≠ 0 → env.create_ramdump_device "smem" = 0 →
      (gss_8064_init K env st).1 = -K.ENOMEM ∧
      (gss_8064_init K env st).2.held =
        held_after_smsm_cb K env st ++
          [Resource.irq K.GSS_A5_WDOG_EXPIRED, Resource.ssr_subsystem "gss",
           Resource.misc_device "gss",
           Resource.ramdump_device "gss" (env.create_ramdump_device "gss")]) ∧
    st.held <+: held_after_smsm_cb K env st := by
  refine ⟨?_, ?_, ?_, ?_, held_prefix_after_smsm_cb K env st⟩
  · intro hssr
    have hne : env.ssr_register_subsystem ≠ 0 := by omega
    by_cases hs : 0 ≤ env.smsm_state_cb_register
    · have hs2 : ¬ env.smsm_state_cb_register < 0 := by omega
      simp [gss_8064_init, gss_subsystem_restart_init, register, emit, hcpu, hirq, hssr, hne,
        held_after_smsm_cb, hs, hs2]
    · have hs2 : env.smsm_state_cb_register < 0 := by omega
      simp [gss_8064_init, gss_subsystem_restart_init, register, emit, hcpu, hirq, hssr, hne,
        held_after_smsm_cb, hs, hs2]
  · intro hssr hmisc
    by_cases hs : 0 ≤ env.smsm_state_cb_register
    · have hs2 : ¬ env.smsm_state_cb_register < 0 := by omega
      simp [gss_8064_init, gss_subsystem_restart_init, register, emit, hcpu, hirq, hssr,
        hmisc, held_after_smsm_cb, hs, hs2]
    · have hs2 : env.smsm_state_cb_register < 0 := by omega
      simp [gss_8064_init, gss_subsystem_restart_init, register, emit, hcpu, hirq, hssr,
        hmisc, held_after_smsm_cb, hs, hs2]
  · intro hssr hmisc hgss
    by_cases hs : 0 ≤ env.smsm_state_cb_register
    · have hs2 : ¬ env.smsm_state_cb_register < 0 := by omega
      simp [gss_8064_init, gss_subsystem_restart_init, register, emit, hcpu, hirq, hssr,
        hmisc, hgss, held_after_smsm_cb, hs, hs2]
    · have hs2 : env.smsm_state_cb_register < 0 := by omega
      simp [gss_8064_init, gss_subsystem_restart_init, register, emit, hcpu, hirq, hssr,
        hmisc, hgss, held_after_smsm_cb, hs, hs2]
  · intro hssr hmisc hgss hsmem
    by_cases hs : 0 ≤ env.smsm_state_cb_register
    · have hs2 : ¬ env.smsm_state_cb_register < 0 := by omega
      simp [gss_8064_init, gss_subsystem_restart_init, register, emit, hcpu, hirq, hssr,
        hmisc, hgss, hsmem, held_after_smsm_cb, hs, hs2]
    · have hs2 : env.smsm_state_cb_register < 0 := by omega
      simp [gss_8064_init, gss_subsystem_restart_init, register, emit, hcpu, hirq, hssr,
        hmisc, hgss, hsmem, held_after_smsm_cb, hs, hs2]

/-- C9 as the code has it, at a run in which the orchestrator registration
fails with -22 after the watchdog IRQ was obtained. -/
theorem gss_8064_init_failure_keeps_resources_witness :
    ({ quietEnv with ssr_register_subsystem := -22 } : Env).cpu_is_apq8064 = true ∧
    ({ quietEnv with ssr_register_subsystem := -22 } : Env).request_irq = 0 ∧
    ({ quietEnv with ssr_register_subsystem := -22 } : Env).ssr_register_subsystem < 0 ∧
    (gss_8064_init msmConsts { quietEnv with ssr_register_subsystem := -22 } State.boot).1 =
      -22 ∧
    (gss_8064_init msmConsts { quietEnv with ssr_register_subsystem := -22 }
      State.boot).2.held =
      held_after_smsm_cb msmConsts { quietEnv with ssr_register_subsystem := -22 }
        State.boot ++ [Resource.irq msmConsts.GSS_A5_WDOG_EXPIRED] :=
  have h := (gss_8064_init_failure_keeps_resources msmConsts
    { quietEnv with ssr_register_subsystem := -22 } State.boot rfl rfl).1 (by decide)
  ⟨rfl, rfl, by decide, h.1, h.2.2⟩

/-- C9 as the claim has it fails: when `ssr_register_subsystem` returns -22
after `request_irq` succeeded, `gss_8064_init` returns -22 having called
nothing but the two registrations, the IRQ request and one `pr_err`, and the
watchdog IRQ is still held on return. -/
theorem gss_8064_init_failure_leaves_irq_held :
    (gss_8064_init msmConsts { quietEnv with ssr_register_subsystem := -22 } State.boot).1 =
      -22 ∧
    (gss_8064_init msmConsts { quietEnv with ssr_register_subsystem := -22 }
      State.boot).2.trace =
      [Call.smsm_state_cb_register 1 0x40, Call.request_irq 100 1 "gss_a5_wdog",
       Call.ssr_register_subsystem "gss", Call.pr_err (Msg.unable_to_reg_ssr (-22))] ∧
    Resource.irq msmConsts.GSS_A5_WDOG_EXPIRED ∈
      (gss_8064_init msmConsts { quietEnv with ssr_register_subsystem := -22 }
        State.boot).2.held ∧
    (gss_8064_init msmConsts { quietEnv with ssr_register_subsystem := -22 }
      State.boot).2.held ≠ [] := by
  refine ⟨by decide, by decide, by decide, by decide⟩

/-! ## Masking of the watchdog interrupt over a fault episode -/

theorem disable_irq_nosync_depth (irq : Nat) (st : State) :
    (disable_irq_nosync irq st).irq_depth irq = st.irq_depth irq + 1 := by
  simp [disable_irq_nosync, emit]

theorem enable_irq_depth (irq : Nat) (st : State) :
    (enable_irq irq st).irq_depth irq = st.irq_depth irq - 1 := by
  unfold enable_irq
  simp only
  split
  · next h =>
    have h0 : st.irq_depth irq = 0 := h
    show st.irq_depth irq = _
    omega
  · next d h =>
    have h0 : st.irq_depth irq = d + 1 := h
    simp [h0]

theorem gss_shutdown_depth (K : Consts) (env : Env) (st : State) :
    (gss_shutdown K env st).2.irq_depth K.GSS_A5_WDOG_EXPIRED =
      st.irq_depth K.GSS_A5_WDOG_EXPIRED + 1 := by
  simp [gss_shutdown, disable_irq_nosync, emit]

theorem gss_powerup_depth (K : Consts) (env : Env) (st : State) :
    (gss_powerup K env st).2.irq_depth K.GSS_A5_WDOG_EXPIRED =
      st.irq_depth K.GSS_A5_WDOG_EXPIRED - 1 := by
  show (enable_irq K.GSS_A5_WDOG_EXPIRED _).irq_depth _ = _
  rw [enable_irq_depth]
  rfl

theorem gss_wdog_bite_irq_depth (K : Consts) (irq : Nat) (st : State) :
    (gss_wdog_bite_irq K irq st).2.irq_depth K.GSS_A5_WDOG_EXPIRED =
      st.irq_depth K.GSS_A5_WDOG_EXPIRED + 1 := by
  show (disable_irq_nosync K.GSS_A5_WDOG_EXPIRED (schedule_work st).2).irq_depth _ = _
  rw [disable_irq_nosync_depth]
  unfold schedule_work
  simp only
  split <;> rfl

/-- A restart that did not start from the watchdog interrupt is balanced:
`gss_shutdown` followed by `gss_powerup` leaves the disable depth of the
watchdog line where it was. -/
theorem gss_shutdown_powerup_balanced (K : Consts) (env1 env2 : Env) (st : State) :
    (gss_powerup K env2 (gss_shutdown K env1 st).2).2.irq_depth K.GSS_A5_WDOG_EXPIRED =
      st.irq_depth K.GSS_A5_WDOG_EXPIRED := by
  rw [gss_powerup_depth, gss_shutdown_depth]
  omega

/-- An episode that starts from the watchdog interrupt is not balanced: after
`gss_wdog_bite_irq`, `gss_shutdown`, `gss_powerup` the disable depth of the
watchdog line is one more than before, so the line is masked. -/
theorem wdog_episode_depth (K : Consts) (env1 env2 : Env) (irq : Nat) (st : State) :
    (gss_powerup K env2 (gss_shutdown K env1
      (gss_wdog_bite_irq K irq st).2).2).2.irq_depth K.GSS_A5_WDOG_EXPIRED =
      st.irq_depth K.GSS_A5_WDOG_EXPIRED + 1 ∧
    irq_unmasked K.GSS_A5_WDOG_EXPIRED (gss_powerup K env2 (gss_shutdown K env1
      (gss_wdog_bite_irq K irq st).2).2).2 = false := by
  have h : (gss_powerup K env2 (gss_shutdown K env1
      (gss_wdog_bite_irq K irq st).2).2).2.irq_depth K.GSS_A5_WDOG_EXPIRED =
      st.irq_depth K.GSS_A5_WDOG_EXPIRED + 1 := by
    rw [gss_powerup_depth, gss_shutdown_depth, gss_wdog_bite_irq_depth]
    omega
  refine ⟨h, ?_⟩
  unfold irq_unmasked
  rw [h]
  simp

/-- C10 on the code: after a successful `gss_8064_init` the watchdog line is
unmasked (depth 0); after `gss_wdog_bite_irq`, `gss_shutdown`, `gss_powerup`
the driver has issued two `disable_irq_nosync` and one `enable_irq`, the
depth is 1 and the line is still masked. -/
theorem wdog_episode_after_init_stays_masked :
    (gss_8064_init msmConsts quietEnv State.boot).1 = 0 ∧
    (gss_8064_init msmConsts quietEnv State.boot).2.irq_depth
      msmConsts.GSS_A5_WDOG_EXPIRED = 0 ∧
    (gss_powerup msmConsts quietEnv (gss_shutdown msmConsts quietEnv
      (gss_wdog_bite_irq msmConsts msmConsts.GSS_A5_WDOG_EXPIRED
        (gss_8064_init msmConsts quietEnv State.boot).2).2).2).2.irq_depth
      msmConsts.GSS_A5_WDOG_EXPIRED = 1 ∧
    irq_unmasked msmConsts.GSS_A5_WDOG_EXPIRED
      (gss_powerup msmConsts quietEnv (gss_shutdown msmConsts quietEnv
        (gss_wdog_bite_irq msmConsts msmConsts.GSS_A5_WDOG_EXPIRED
          (gss_8064_init msmConsts quietEnv State.boot).2).2).2).2 = false ∧
    ((gss_powerup msmConsts quietEnv (gss_shutdown msmConsts quietEnv
      (gss_wdog_bite_irq msmConsts msmConsts.GSS_A5_WDOG_EXPIRED
        (gss_8064_init msmConsts quietEnv State.boot).2).2).2).2.trace.drop
      (gss_8064_init msmConsts quietEnv State.boot).2.trace.length) =
      [Call.schedule_work, Call.disable_irq_nosync 100,
       Call.pil_force_shutdown "gss" 0, Call.disable_irq_nosync 100,
       Call.pil_force_boot "gss" 0, Call.enable_irq 100] := by
  refine ⟨by decide, by decide, by decide, by decide, by decide⟩

end Gss8064
